import Mathlib

/-!
Shallow embedding of the patient risk analysis core (`src/lib/utils.ts` of
ksense-take-home) and proofs of the specification's claims about it.

JavaScript numeric fields (`temperature`, `age`) may hold `null`, `undefined`
or `NaN` at runtime even though the TypeScript type says `number`; they are
modelled by `JsNum` with exact rationals for the numeric case. The
blood-pressure field is a string in TypeScript but the parser defensively
checks `typeof bp !== 'string'`, so it is modelled by `BPValue`.
-/

namespace Ksense

/-- A JavaScript value expected to be a number: an actual (finite) number,
or `null`, `undefined`, `NaN`. -/
inductive JsNum where
  | null
  | undef
  | nan
  | num (x : ℚ)
deriving DecidableEq, Repr

/-- The blood-pressure field: a string, or any non-string value
(the code's `typeof bp !== 'string'` branch). -/
inductive BPValue where
  | nonString
  | str (s : String)
deriving DecidableEq, Repr

/-- `Patient` from `src/lib/types.ts`. -/
structure Patient where
  patient_id : String
  name : String
  age : JsNum
  gender : String
  blood_pressure : BPValue
  temperature : JsNum
  visit_date : String
  diagnosis : String
  medications : String
deriving DecidableEq, Repr

/-- `RiskScores` from `src/lib/utils.ts`. -/
structure RiskScores where
  bloodPressure : ℕ
  temperature : ℕ
  age : ℕ
  total : ℕ
deriving DecidableEq, Repr

/-- `PatientRiskAnalysis` from `src/lib/utils.ts`. -/
structure PatientRiskAnalysis where
  patientId : String
  riskScores : RiskScores
  isHighRisk : Bool
  hasFever : Bool
  hasDataQualityIssues : Bool
deriving DecidableEq, Repr

/-- JavaScript `v === null`. -/
def jsIsNull : JsNum → Bool
  | JsNum.null => true
  | _ => false

/-- JavaScript `v === undefined`. -/
def jsIsUndefined : JsNum → Bool
  | JsNum.undef => true
  | _ => false

/-- JavaScript global `isNaN(v)`: coerces first, so `isNaN(null) = false`
(Number(null) = 0) while `isNaN(undefined) = true`. -/
def jsIsNaN : JsNum → Bool
  | JsNum.null => false
  | JsNum.undef => true
  | JsNum.nan => true
  | JsNum.num _ => false

/-- The code's recurring guard `v === null || v === undefined || isNaN(v)`. -/
def invalidNum (v : JsNum) : Bool :=
  jsIsNull v || jsIsUndefined v || jsIsNaN v

/-- JavaScript `v >= q` for a number literal `q`: `null` coerces to 0,
`undefined` coerces to NaN (comparison false), NaN compares false. -/
def jsGe (v : JsNum) (q : ℚ) : Bool :=
  match v with
  | JsNum.null => decide ((0 : ℚ) ≥ q)
  | JsNum.undef => false
  | JsNum.nan => false
  | JsNum.num x => decide (x ≥ q)

/-- `parseInt` on a non-empty all-digit group of the regex match. -/
def digitsToNat (ds : List Char) : ℕ :=
  ds.foldl (fun n c => n * 10 + (c.toNat - 48)) 0

/-- One attempt of the regex `(\d+)\/(\d+)` anchored at the start of `cs`:
the greedy `\d+` with backtracking before a literal `/` is equivalent to
taking the maximal digit run and requiring `/` right after it (backtracking
to a shorter run would leave a digit, not `/`, as the next character). -/
def matchAt (cs : List Char) : Option (ℕ × ℕ) :=
  if cs.takeWhile Char.isDigit = [] then none
  else
    match cs.dropWhile Char.isDigit with
    | '/' :: rest2 =>
      if rest2.takeWhile Char.isDigit = [] then none
      else some (digitsToNat (cs.takeWhile Char.isDigit),
                 digitsToNat (rest2.takeWhile Char.isDigit))
    | _ => none

/-- `bp.match(/(\d+)\/(\d+)/)`: the leftmost match, scanning start positions
left to right. -/
def findMatch : List Char → Option (ℕ × ℕ)
  | [] => none
  | c :: rest =>
    match matchAt (c :: rest) with
    | some r => some r
    | none => findMatch rest

/-- `parseBloodPressure` from `src/lib/utils.ts`: `none` models the empty
object `{}` (both fields unset); `some (s, d)` models
`{systolic: s, diastolic: d}`. The `bp = ""` test is the string half of the
code's falsiness guard `!bp`. -/
def parseBloodPressure : BPValue → Option (ℕ × ℕ)
  | BPValue.nonString => none
  | BPValue.str s => if s = "" then none else findMatch s.data

/-- The ordered if-chain of `calculateBloodPressureRisk` after destructuring
a successful parse into `systolic`/`diastolic`. -/
def bpRiskFromPair (systolic diastolic : ℕ) : ℕ :=
  if systolic < 120 ∧ diastolic < 80 then 0
  else if 120 ≤ systolic ∧ systolic ≤ 129 ∧ diastolic < 80 then 1
  else if (130 ≤ systolic ∧ systolic ≤ 139) ∨ (80 ≤ diastolic ∧ diastolic ≤ 89) then 2
  else if 140 ≤ systolic ∨ 90 ≤ diastolic then 3
  else 0

/-- `calculateBloodPressureRisk` from `src/lib/utils.ts`: the `none` branch
is the code's `systolic === undefined || diastolic === undefined` check. -/
def calculateBloodPressureRisk (bp : BPValue) : ℕ :=
  match parseBloodPressure bp with
  | none => 0
  | some (systolic, diastolic) => bpRiskFromPair systolic diastolic

/-- `calculateTemperatureRisk` from `src/lib/utils.ts`: the non-`num` cases
are exactly the code's `temp === null || temp === undefined || isNaN(temp)`
guard. -/
def calculateTemperatureRisk (temp : JsNum) : ℕ :=
  match temp with
  | JsNum.num x =>
    if x ≤ 99.5 then 0
    else if 99.6 ≤ x ∧ x < 101.0 then 1
    else if 101.0 ≤ x then 2
    else 0
  | _ => 0

/-- `calculateAgeRisk` from `src/lib/utils.ts`; same invalid-data guard. -/
def calculateAgeRisk (age : JsNum) : ℕ :=
  match age with
  | JsNum.num x =>
    if x < 40 then 0
    else if 40 ≤ x ∧ x ≤ 65 then 1
    else if 65 < x then 2
    else 0
  | _ => 0

/-- `hasDataQualityIssues` from `src/lib/utils.ts`. -/
def hasDataQualityIssues (patient : Patient) : Bool :=
  match parseBloodPressure patient.blood_pressure with
  | none => true
  | some _ =>
    if invalidNum patient.temperature then true
    else if invalidNum patient.age then true
    else false

/-- `checkRisk` from `src/lib/utils.ts`. The `hasFever` expression keeps the
source's shape: a JS `>=` comparison (with coercion) conjoined with the
null/undefined/NaN exclusions. -/
def checkRisk (patient : Patient) : PatientRiskAnalysis :=
  let bloodPressureRisk := calculateBloodPressureRisk patient.blood_pressure
  let temperatureRisk := calculateTemperatureRisk patient.temperature
  let ageRisk := calculateAgeRisk patient.age
  let totalRisk := bloodPressureRisk + temperatureRisk + ageRisk
  let feverFlag := jsGe patient.temperature 99.6 &&
    !jsIsNull patient.temperature &&
    !jsIsUndefined patient.temperature &&
    !jsIsNaN patient.temperature
  { patientId := patient.patient_id
    riskScores :=
      { bloodPressure := bloodPressureRisk
        temperature := temperatureRisk
        age := ageRisk
        total := totalRisk }
    isHighRisk := decide (totalRisk ≥ 4)
    hasFever := feverFlag
    hasDataQualityIssues := hasDataQualityIssues patient }

/-- The result record of `analyzePatients`. -/
structure AnalysisResult where
  highRiskPatients : List String
  feverPatients : List String
  dataQualityIssues : List String
  analyses : List PatientRiskAnalysis
deriving DecidableEq, Repr

/-- `analyzePatients` from `src/lib/utils.ts`. -/
def analyzePatients (patients : List Patient) : AnalysisResult :=
  let analyses := patients.map checkRisk
  { highRiskPatients := (analyses.filter (fun a => a.isHighRisk)).map (fun a => a.patientId)
    feverPatients := (analyses.filter (fun a => a.hasFever)).map (fun a => a.patientId)
    dataQualityIssues :=
      (analyses.filter (fun a => a.hasDataQualityIssues)).map (fun a => a.patientId)
    analyses := analyses }

/-- Spec-side statement of the blood-pressure policy, following the claim's
wording: the value of the first applicable rule of the ordered policy
(1) unparsed input scores 0; (2) S below 120 and D below 80 scores 0;
(3) 120≤S≤129 and D below 80 scores 1; (4) 130≤S≤139 or 80≤D≤89 scores 2;
(5) S≥140 or D≥90 scores 3;
(6) otherwise 0. -/
def bpPolicyOrdered (parsed : Option (ℕ × ℕ)) : ℕ :=
  match parsed with
  | none => 0
  | some (S, D) =>
    if S < 120 ∧ D < 80 then 0
    else if 120 ≤ S ∧ S ≤ 129 ∧ D < 80 then 1
    else if (130 ≤ S ∧ S ≤ 139) ∨ (80 ≤ D ∧ D ≤ 89) then 2
    else if 140 ≤ S ∨ 90 ≤ D then 3
    else 0

/-- `bpRiskFromPair` with the defensive final fallback replaced by a sentinel
value 4: the two functions agree everywhere exactly when the fallback branch
is unreachable. -/
def bpRiskFromPairProbe (systolic diastolic : ℕ) : ℕ :=
  if systolic < 120 ∧ diastolic < 80 then 0
  else if 120 ≤ systolic ∧ systolic ≤ 129 ∧ diastolic < 80 then 1
  else if (130 ≤ systolic ∧ systolic ≤ 139) ∨ (80 ≤ diastolic ∧ diastolic ≤ 89) then 2
  else if 140 ≤ systolic ∨ 90 ≤ diastolic then 3
  else 4

/-- A concrete record that is simultaneously high-risk and data-quality
flagged: blood pressure 150/95 (score 3) and age 70 (score 2) give total 5,
while the missing temperature sets the quality flag but not the fever flag. -/
def demoPatient : Patient :=
  { patient_id := "DEMO1"
    name := "Demo"
    age := JsNum.num 70
    gender := "F"
    blood_pressure := BPValue.str "150/95"
    temperature := JsNum.null
    visit_date := "2024-01-01"
    diagnosis := "none"
    medications := "none" }

/-- Spec-side characterisation of the regex `(\d+)\/(\d+)` having a match:
the character list contains a digit immediately followed by `'/'` immediately
followed by a digit. (Any substring `<digits>/<digits>` contains such a
three-character window, and conversely.) -/
def hasDSD : List Char → Bool
  | a :: b :: c :: rest => (a.isDigit && b == '/' && c.isDigit) || hasDSD (b :: c :: rest)
  | _ => false

/-! ### Lemmas about the regex matcher -/

theorem findMatch_cons_isSome (a : Char) (t : List Char) :
    (findMatch (a :: t)).isSome = ((matchAt (a :: t)).isSome || (findMatch t).isSome) := by
  have h : findMatch (a :: t) = match matchAt (a :: t) with
      | some r => some r
      | none => findMatch t := rfl
  rw [h]
  cases matchAt (a :: t) <;> simp

theorem matchAt_cons_not_digit {a : Char} (t : List Char) (h : a.isDigit = false) :
    matchAt (a :: t) = none := by
  unfold matchAt
  simp [List.takeWhile_cons, h]

theorem matchAt_single (a : Char) : matchAt [a] = none := by
  unfold matchAt
  by_cases h : a.isDigit <;> simp [List.takeWhile_cons, List.dropWhile_cons, h]

theorem matchAt_cons_digit_digit {a b : Char} (t : List Char)
    (ha : a.isDigit = true) (hb : b.isDigit = true) :
    (matchAt (a :: b :: t)).isSome = (matchAt (b :: t)).isSome := by
  unfold matchAt
  simp only [List.takeWhile_cons, List.dropWhile_cons, ha, hb, if_true, reduceCtorEq]
  simp only [if_false]
  cases h : (t.dropWhile Char.isDigit) with
  | nil => simp
  | cons x xs =>
    by_cases hx : x = '/'
    · subst hx
      by_cases h2 : xs.takeWhile Char.isDigit = [] <;> simp [h2]
    · cases x <;> simp_all

theorem matchAt_slash_pair (a : Char) : matchAt [a, '/'] = none := by
  by_cases h : a.isDigit
  · unfold matchAt
    have hs : ('/' : Char).isDigit = false := by decide
    simp [List.takeWhile_cons, List.dropWhile_cons, h, hs]
  · exact matchAt_cons_not_digit _ (by simpa using h)

theorem matchAt_slash_cons {a : Char} (c : Char) (r : List Char) (ha : a.isDigit = true) :
    (matchAt (a :: '/' :: c :: r)).isSome = c.isDigit := by
  unfold matchAt
  have hs : ('/' : Char).isDigit = false := by decide
  simp only [List.takeWhile_cons, List.dropWhile_cons, ha, hs, if_true, if_false]
  by_cases hc : c.isDigit <;>
    simp [List.takeWhile_cons, hc]

theorem matchAt_cons_other {a b : Char} (t : List Char)
    (ha : a.isDigit = true) (hb : b.isDigit = false) (hbs : b ≠ '/') :
    matchAt (a :: b :: t) = none := by
  unfold matchAt
  simp only [List.takeWhile_cons, List.dropWhile_cons, ha, hb, if_true, if_false]
  simp only [reduceCtorEq, if_false]
  cases b with
  | mk v h => simp_all

theorem hasDSD_cons_of_tail {t : List Char} (a : Char) (h : hasDSD t = true) :
    hasDSD (a :: t) = true := by
  match t with
  | [] => rw [show hasDSD ([] : List Char) = false from rfl] at h; exact absurd h (by simp)
  | [b] => rw [show hasDSD [b] = false from rfl] at h; exact absurd h (by simp)
  | b :: c :: r =>
    rw [show hasDSD (a :: b :: c :: r)
        = ((a.isDigit && (b == '/') && c.isDigit) || hasDSD (b :: c :: r)) from rfl, h]
    simp

theorem matchAt_isSome_hasDSD :
    ∀ cs : List Char, (matchAt cs).isSome = true → hasDSD cs = true := by
  intro cs
  induction cs with
  | nil => intro h; rw [show matchAt [] = none from rfl] at h; exact absurd h (by simp)
  | cons a t ih =>
    intro h
    by_cases ha : a.isDigit
    · cases t with
      | nil => rw [matchAt_single] at h; exact absurd h (by simp)
      | cons b t2 =>
        by_cases hb : b.isDigit
        · rw [matchAt_cons_digit_digit t2 ha hb] at h
          exact hasDSD_cons_of_tail a (ih h)
        · by_cases hbs : b = '/'
          · subst hbs
            cases t2 with
            | nil => rw [matchAt_slash_pair] at h; exact absurd h (by simp)
            | cons c r =>
              rw [matchAt_slash_cons c r ha] at h
              rw [show hasDSD (a :: '/' :: c :: r)
                  = ((a.isDigit && (('/' : Char) == '/') && c.isDigit)
                    || hasDSD ('/' :: c :: r)) from rfl]
              simp [ha, h]
          · rw [matchAt_cons_other t2 ha (by simpa using hb) hbs] at h
            exact absurd h (by simp)
    · rw [matchAt_cons_not_digit t (by simpa using ha)] at h
      exact absurd h (by simp)

theorem hasDSD_findMatch :
    ∀ cs : List Char, hasDSD cs = true → (findMatch cs).isSome = true := by
  intro cs
  induction cs with
  | nil => intro h; rw [show hasDSD ([] : List Char) = false from rfl] at h; exact absurd h (by simp)
  | cons a t ih =>
    intro h
    rw [findMatch_cons_isSome]
    cases t with
    | nil => rw [show hasDSD [a] = false from rfl] at h; exact absurd h (by simp)
    | cons b t2 =>
      cases t2 with
      | nil => rw [show hasDSD [a, b] = false from rfl] at h; exact absurd h (by simp)
      | cons c r =>
        rw [show hasDSD (a :: b :: c :: r)
            = ((a.isDigit && (b == '/') && c.isDigit) || hasDSD (b :: c :: r)) from rfl] at h
        rw [Bool.or_eq_true] at h
        rcases h with h1 | h2
        · rw [Bool.and_eq_true, Bool.and_eq_true] at h1
          obtain ⟨⟨ha, hb⟩, hc⟩ := h1
          have hb2 : b = '/' := by simpa using hb
          subst hb2
          rw [matchAt_slash_cons c r ha, hc]
          simp
        · rw [ih h2]
          simp

theorem findMatch_isSome_hasDSD :
    ∀ cs : List Char, (findMatch cs).isSome = true → hasDSD cs = true := by
  intro cs
  induction cs with
  | nil => intro h; exact absurd h (by simp [findMatch])
  | cons a t ih =>
    intro h
    rw [findMatch_cons_isSome] at h
    rw [Bool.or_eq_true] at h
    rcases h with h1 | h2
    · exact matchAt_isSome_hasDSD _ h1
    · exact hasDSD_cons_of_tail a (ih h2)

theorem findMatch_isSome_eq_hasDSD (cs : List Char) :
    (findMatch cs).isSome = hasDSD cs := by
  cases h : hasDSD cs with
  | true => exact hasDSD_findMatch cs h
  | false =>
    cases hf : (findMatch cs).isSome with
    | true => exact absurd (findMatch_isSome_hasDSD cs hf) (by simp [h])
    | false => rfl

theorem parseBloodPressure_str_isSome (s : String) :
    (parseBloodPressure (BPValue.str s)).isSome = hasDSD s.data := by
  unfold parseBloodPressure
  by_cases h : s = ""
  · subst h
    simp [show ("" : String).data = [] from rfl, show hasDSD ([] : List Char) = false from rfl]
  · simp only [h, if_false]
    exact findMatch_isSome_eq_hasDSD s.data

/-! ### Range lemmas for the three sub-scores -/

theorem bpRiskFromPair_le_3 (systolic diastolic : ℕ) :
    bpRiskFromPair systolic diastolic ≤ 3 := by
  unfold bpRiskFromPair
  split_ifs <;> omega

theorem calculateBloodPressureRisk_le_3 (bp : BPValue) :
    calculateBloodPressureRisk bp ≤ 3 := by
  unfold calculateBloodPressureRisk
  cases parseBloodPressure bp with
  | none => exact Nat.zero_le _
  | some pr => exact bpRiskFromPair_le_3 pr.1 pr.2

theorem calculateTemperatureRisk_le_2 (temp : JsNum) :
    calculateTemperatureRisk temp ≤ 2 := by
  cases temp with
  | num x =>
    show (if x ≤ 99.5 then (0 : ℕ)
      else if 99.6 ≤ x ∧ x < 101.0 then 1 else if 101.0 ≤ x then 2 else 0) ≤ 2
    split_ifs <;> omega
  | null => exact Nat.zero_le _
  | undef => exact Nat.zero_le _
  | nan => exact Nat.zero_le _

theorem calculateAgeRisk_le_2 (age : JsNum) :
    calculateAgeRisk age ≤ 2 := by
  cases age with
  | num x =>
    show (if x < 40 then (0 : ℕ)
      else if 40 ≤ x ∧ x ≤ 65 then 1 else if 65 < x then 2 else 0) ≤ 2
    split_ifs <;> omega
  | null => exact Nat.zero_le _
  | undef => exact Nat.zero_le _
  | nan => exact Nat.zero_le _

/-! ### The claims -/

/-- C1: for every blood-pressure input, `calculateBloodPressureRisk` returns
the value of the first applicable rule of the ordered policy (unparsed 0;
normal 0; elevated 1; stage-1 OR-condition 2; stage-2 3; fallback 0); in
particular the OR of rule 4 makes S=125, D=85 score 2 via the diastolic
clause, and the string "110/85" scores 2 despite a normal systolic. -/
theorem claim_C1_bp_ordered_policy :
    (∀ bp : BPValue, calculateBloodPressureRisk bp = bpPolicyOrdered (parseBloodPressure bp))
    ∧ bpRiskFromPair 125 85 = 2
    ∧ calculateBloodPressureRisk (BPValue.str "110/85") = 2 := by
  refine ⟨fun bp => ?_, by decide, by decide⟩
  unfold calculateBloodPressureRisk bpPolicyOrdered bpRiskFromPair
  cases parseBloodPressure bp with
  | none => rfl
  | some pr => rfl

/-- C2: `parseBloodPressure` succeeds exactly on string inputs containing a
digits/digits pattern, returning the integer systolic and diastolic; any
non-match — wrong format, non-numeric, or absent (empty or non-string
input) — yields the unparsed result (`none`), and the function is total, so
it never fails. -/
theorem claim_C2_parse_contract :
    (∀ v : BPValue, (parseBloodPressure v).isSome = true
        ↔ ∃ s : String, v = BPValue.str s ∧ hasDSD s.data = true)
    ∧ parseBloodPressure BPValue.nonString = none
    ∧ parseBloodPressure (BPValue.str "") = none
    ∧ parseBloodPressure (BPValue.str "not numeric") = none
    ∧ parseBloodPressure (BPValue.str "120/80") = some (120, 80) := by
  refine ⟨fun v => ?_, rfl, by decide, by decide, by decide⟩
  cases v with
  | nonString => simp [parseBloodPressure]
  | str s =>
    rw [parseBloodPressure_str_isSome]
    constructor
    · intro h
      exact ⟨s, rfl, h⟩
    · rintro ⟨s2, hs, h⟩
      injection hs with h2
      subst h2
      exact h

/-- C3: `hasDataQualityIssues` is true exactly when the blood pressure fails
to parse, or the temperature is missing/non-numeric, or the age is
missing/non-numeric; the right-hand side mentions no score, so the flag is
independent of the magnitudes of valid values. -/
theorem claim_C3_quality_flag :
    ∀ p : Patient,
      hasDataQualityIssues p =
        ((parseBloodPressure p.blood_pressure).isNone
          || invalidNum p.temperature || invalidNum p.age) := by
  intro p
  unfold hasDataQualityIssues
  cases parseBloodPressure p.blood_pressure with
  | none => simp
  | some pr =>
    by_cases h1 : invalidNum p.temperature = true <;>
      by_cases h2 : invalidNum p.age = true <;>
      simp_all

/-- C9: the defensive final fallback of the blood-pressure chain is
unreachable for every parsed pair: the chain is unchanged when the fallback
value is replaced by a sentinel, because one of the four range rules always
applies. -/
theorem claim_C9_fallback_unreachable :
    (∀ systolic diastolic : ℕ,
        bpRiskFromPair systolic diastolic = bpRiskFromPairProbe systolic diastolic)
    ∧ ∀ systolic diastolic : ℕ,
        (systolic < 120 ∧ diastolic < 80)
        ∨ (120 ≤ systolic ∧ systolic ≤ 129 ∧ diastolic < 80)
        ∨ ((130 ≤ systolic ∧ systolic ≤ 139) ∨ (80 ≤ diastolic ∧ diastolic ≤ 89))
        ∨ (140 ≤ systolic ∨ 90 ≤ diastolic) := by
  constructor
  · intro s d
    unfold bpRiskFromPair bpRiskFromPairProbe
    split_ifs <;> omega
  · intro s d
    omega

/-- C4: the fever flag of `checkRisk` is true exactly when the temperature
field is a valid number at least 99.6; `null`, `undefined` and NaN
temperatures never set it, whatever the other fields hold. -/
theorem claim_C4_fever_flag :
    ∀ p : Patient,
      ((checkRisk p).hasFever = true ↔ ∃ x : ℚ, p.temperature = JsNum.num x ∧ 99.6 ≤ x) := by
  intro p
  have hf : (checkRisk p).hasFever =
      (jsGe p.temperature 99.6 && !jsIsNull p.temperature
        && !jsIsUndefined p.temperature && !jsIsNaN p.temperature) := rfl
  rw [hf]
  cases h : p.temperature with
  | null =>
    have hg : jsGe JsNum.null 99.6 = false := by
      have h0 : ¬ ((0 : ℚ) ≥ 99.6) := by norm_num
      simp [jsGe, h0]
    simp [hg]
  | undef => simp [jsGe, jsIsUndefined]
  | nan => simp [jsGe, jsIsNaN]
  | num x => simp [jsGe, jsIsNull, jsIsUndefined, jsIsNaN, ge_iff_le]

/-- C5: for every patient record, the total is the sum of the three
sub-scores and all values lie in their documented ranges: blood pressure at
most 3, temperature at most 2, age at most 2, total at most 7 (lower bound 0
holds by the natural-number typing). -/
theorem claim_C5_score_ranges :
    ∀ p : Patient,
      (checkRisk p).riskScores.total
          = (checkRisk p).riskScores.bloodPressure + (checkRisk p).riskScores.temperature
            + (checkRisk p).riskScores.age
      ∧ (checkRisk p).riskScores.bloodPressure ≤ 3
      ∧ (checkRisk p).riskScores.temperature ≤ 2
      ∧ (checkRisk p).riskScores.age ≤ 2
      ∧ (checkRisk p).riskScores.total ≤ 7 := by
  intro p
  have hbp : (checkRisk p).riskScores.bloodPressure
      = calculateBloodPressureRisk p.blood_pressure := rfl
  have ht : (checkRisk p).riskScores.temperature
      = calculateTemperatureRisk p.temperature := rfl
  have ha : (checkRisk p).riskScores.age = calculateAgeRisk p.age := rfl
  have htot : (checkRisk p).riskScores.total
      = calculateBloodPressureRisk p.blood_pressure + calculateTemperatureRisk p.temperature
        + calculateAgeRisk p.age := rfl
  refine ⟨by rw [hbp, ht, ha, htot], ?_, ?_, ?_, ?_⟩
  · rw [hbp]; exact calculateBloodPressureRisk_le_3 _
  · rw [ht]; exact calculateTemperatureRisk_le_2 _
  · rw [ha]; exact calculateAgeRisk_le_2 _
  · rw [htot]
    have h1 := calculateBloodPressureRisk_le_3 p.blood_pressure
    have h2 := calculateTemperatureRisk_le_2 p.temperature
    have h3 := calculateAgeRisk_le_2 p.age
    omega

/-- C6: the high-risk flag of `checkRisk` is true exactly when the total
score is at least 4. -/
theorem claim_C6_high_risk_threshold :
    ∀ p : Patient,
      ((checkRisk p).isHighRisk = true ↔ 4 ≤ (checkRisk p).riskScores.total) := by
  intro p
  have h : (checkRisk p).isHighRisk = decide ((checkRisk p).riskScores.total ≥ 4) := rfl
  rw [h]
  exact decide_eq_true_iff

/-- C7: `calculateTemperatureRisk` is at most 2, and: missing or non-numeric
input scores 0; a numeric value at most 99.5 scores 0; a numeric value in
[99.6, 101.0) scores 1; a numeric value at least 101.0 scores 2. -/
theorem claim_C7_temperature_bands :
    ∀ t : JsNum,
      calculateTemperatureRisk t ≤ 2
      ∧ (invalidNum t = true → calculateTemperatureRisk t = 0)
      ∧ ∀ x : ℚ, t = JsNum.num x →
          ((x ≤ 99.5 → calculateTemperatureRisk t = 0)
          ∧ (99.6 ≤ x ∧ x < 101.0 → calculateTemperatureRisk t = 1)
          ∧ (101.0 ≤ x → calculateTemperatureRisk t = 2)) := by
  intro t
  refine ⟨calculateTemperatureRisk_le_2 t, ?_, ?_⟩
  · intro h
    cases t with
    | num x => simp [invalidNum, jsIsNull, jsIsUndefined, jsIsNaN] at h
    | null => rfl
    | undef => rfl
    | nan => rfl
  · intro x hx
    subst hx
    have he : calculateTemperatureRisk (JsNum.num x)
        = (if x ≤ 99.5 then 0
          else if 99.6 ≤ x ∧ x < 101.0 then 1 else if 101.0 ≤ x then 2 else 0) := rfl
    have c1 : (99.5 : ℚ) < 99.6 := by norm_num
    have c2 : (99.6 : ℚ) < 101.0 := by norm_num
    refine ⟨fun h => ?_, fun h => ?_, fun h => ?_⟩
    · rw [he, if_pos h]
    · rw [he, if_neg (by linarith [h.1]), if_pos h]
    · rw [he, if_neg (by linarith), if_neg (fun hc => absurd h (by simp [not_le.mpr hc.2])),
        if_pos h]

/-! ### Batch analyzer helpers -/

theorem filtered_ids_sublist (ps : List Patient) (f : PatientRiskAnalysis → Bool) :
    List.Sublist (((ps.map checkRisk).filter f).map (fun a => a.patientId))
      (ps.map (fun p => (checkRisk p).patientId)) := by
  have h1 : List.Sublist ((ps.map checkRisk).filter f) (ps.map checkRisk) :=
    List.filter_sublist _
  have h2 := List.Sublist.map (fun a => a.patientId) h1
  rw [List.map_map] at h2
  exact h2

theorem filtered_ids_mem (ps : List Patient) (f : PatientRiskAnalysis → Bool) (p : Patient)
    (hp : p ∈ ps) (hf : f (checkRisk p) = true) :
    (checkRisk p).patientId ∈ ((ps.map checkRisk).filter f).map (fun a => a.patientId) :=
  List.mem_map_of_mem _ (List.mem_filter.mpr ⟨List.mem_map_of_mem _ hp, hf⟩)

/-- C8: `analyzePatients` returns the full classification sequence
(`checkRisk` mapped in input order) and three identifier lists, each a
sublist of the full identifier sequence (so each preserves the relative
input order); every record whose respective flag is set contributes its
identifier to the corresponding list, and the lists are independent — the
concrete `demoPatient` is simultaneously in the high-risk and data-quality
lists while absent from the fever list. -/
theorem claim_C8_batch_analyzer :
    (∀ ps : List Patient,
      (analyzePatients ps).analyses = ps.map checkRisk
      ∧ List.Sublist (analyzePatients ps).highRiskPatients
          (ps.map (fun p => (checkRisk p).patientId))
      ∧ List.Sublist (analyzePatients ps).feverPatients
          (ps.map (fun p => (checkRisk p).patientId))
      ∧ List.Sublist (analyzePatients ps).dataQualityIssues
          (ps.map (fun p => (checkRisk p).patientId))
      ∧ ∀ p ∈ ps,
          ((checkRisk p).isHighRisk = true →
            (checkRisk p).patientId ∈ (analyzePatients ps).highRiskPatients)
          ∧ ((checkRisk p).hasFever = true →
            (checkRisk p).patientId ∈ (analyzePatients ps).feverPatients)
          ∧ ((checkRisk p).hasDataQualityIssues = true →
            (checkRisk p).patientId ∈ (analyzePatients ps).dataQualityIssues))
    ∧ (analyzePatients [demoPatient]).highRiskPatients = ["DEMO1"]
    ∧ (analyzePatients [demoPatient]).dataQualityIssues = ["DEMO1"]
    ∧ (analyzePatients [demoPatient]).feverPatients = [] := by
  have hb : calculateBloodPressureRisk (BPValue.str "150/95") = 3 := by decide
  have ht : calculateTemperatureRisk JsNum.null = 0 := rfl
  have ha : calculateAgeRisk (JsNum.num 70) = 2 := by norm_num [calculateAgeRisk]
  have htot : (checkRisk demoPatient).riskScores.total = 5 := by
    have h0 : (checkRisk demoPatient).riskScores.total
        = calculateBloodPressureRisk (BPValue.str "150/95")
          + calculateTemperatureRisk JsNum.null + calculateAgeRisk (JsNum.num 70) := rfl
    rw [h0, hb, ht, ha]
  have hhr : (checkRisk demoPatient).isHighRisk = true := by
    show decide ((checkRisk demoPatient).riskScores.total >= 4) = true
    exact decide_eq_true (by rw [htot]; norm_num)
  have hid : (checkRisk demoPatient).patientId = "DEMO1" := rfl
  have hdq : (checkRisk demoPatient).hasDataQualityIssues = true := by decide
  have hfe : (checkRisk demoPatient).hasFever = false := by
    have h0 : (checkRisk demoPatient).hasFever
        = (jsGe JsNum.null 99.6 && !jsIsNull JsNum.null
          && !jsIsUndefined JsNum.null && !jsIsNaN JsNum.null) := rfl
    have hg : jsGe JsNum.null 99.6 = false := by
      have h1 : ¬ ((0 : ℚ) ≥ 99.6) := by norm_num
      simp [jsGe, h1]
    rw [h0, hg]
    rfl
  refine ⟨fun ps => ⟨rfl, filtered_ids_sublist ps _, filtered_ids_sublist ps _,
    filtered_ids_sublist ps _, fun p hp =>
      ⟨fun h => filtered_ids_mem ps _ p hp h, fun h => filtered_ids_mem ps _ p hp h,
        fun h => filtered_ids_mem ps _ p hp h⟩⟩, ?_, ?_, ?_⟩
  · show (([demoPatient].map checkRisk).filter (fun a => a.isHighRisk)).map
        (fun a => a.patientId) = ["DEMO1"]
    simp [List.filter, hhr, hid]
  · show (([demoPatient].map checkRisk).filter (fun a => a.hasDataQualityIssues)).map
        (fun a => a.patientId) = ["DEMO1"]
    simp [List.filter, hdq, hid]
  · show (([demoPatient].map checkRisk).filter (fun a => a.hasFever)).map
        (fun a => a.patientId) = []
    simp [List.filter, hfe]

/-- C10: any string containing a digits/digits substring parses successfully
— even when the whole string is not of the form S/D, as in "150/95/100" or a
reading embedded in text, where the leftmost occurrence is taken — and such
a record is flagged by `hasDataQualityIssues` only on account of its
temperature or age, never its blood pressure. -/
theorem claim_C10_embedded_patterns :
    (∀ s : String, hasDSD s.data = true → (parseBloodPressure (BPValue.str s)).isSome = true)
    ∧ parseBloodPressure (BPValue.str "150/95/100") = some (150, 95)
    ∧ parseBloodPressure (BPValue.str "reading 128/83 at rest") = some (128, 83)
    ∧ parseBloodPressure (BPValue.str "12a34/56") = some (34, 56)
    ∧ ∀ p : Patient,
        (parseBloodPressure p.blood_pressure).isSome = true →
          hasDataQualityIssues p = (invalidNum p.temperature || invalidNum p.age) := by
  refine ⟨fun s h => ?_, by decide, by decide, by decide, fun p h => ?_⟩
  · rw [parseBloodPressure_str_isSome]
    exact h
  · unfold hasDataQualityIssues
    cases hp : parseBloodPressure p.blood_pressure with
    | none => rw [hp] at h; exact absurd h (by simp)
    | some pr =>
      by_cases h1 : invalidNum p.temperature = true <;>
        by_cases h2 : invalidNum p.age = true <;>
        simp_all

end Ksense
